import Mathlib

set_option linter.unusedVariables false

/-!
Verification development for the Shibuya DOM-first browser agent (`app.py`).

The Python program manipulates JSON-like values (plans are lists of dicts),
calls a completion service (Groq), runs a Playwright loop inside a Docker
sandbox, and orchestrates the sandbox process.  We shallowly embed:

* Python/JSON values as the inductive type `JVal` (floats do not occur in any
  value the verified code inspects, so numbers are modelled as `Int`; a dict
  is an association list with unique keys, looked up by first match);
* the pure functions `validate_plan`, `deterministic_demo_plan`,
  `dom_preview` directly;
* the effectful parts (`groq_plan`, the in-sandbox runner loop written in the
  `PLAYWRIGHT_RUNNER` source string, `run_in_docker`, the plan selection in
  `api_run`) as functions over explicit oracles describing what the external
  world does (the completion call, the browser actions, the docker process),
  with `Except Unit` modelling an uncaught Python exception propagating out.
-/

/-- Embedding of the Python/JSON values the program manipulates. -/
inductive JVal where
  | null
  | bool (b : Bool)
  | num (n : Int)
  | str (s : String)
  | list (xs : List JVal)
  | dict (kvs : List (String × JVal))

/-- Python `d.get(key)` on a dict represented as an association list
(keys are unique in any list representing an actual Python dict). -/
def dget : List (String × JVal) → String → Option JVal
  | [], _ => none
  | (k, v) :: rest, key => if k = key then some v else dget rest key

/-- Python `isinstance(v, list)`. -/
def isListV : JVal → Bool
  | .list _ => true
  | _ => false

/-- Python `isinstance(v, dict)`. -/
def isDictV : JVal → Bool
  | .dict _ => true
  | _ => false

/-- Set equality of two key collections, as Python
`set(a) == set(b)` (order and multiplicity do not matter). -/
def keySetEq (a b : List String) : Bool :=
  a.all (fun k => b.contains k) && b.all (fun k => a.contains k)

mutual
/-- Python `repr` of a value, as used by `str()` on non-string values.
(Approximates Python's string-escaping inside `repr` by plain quoting;
no verified claim inspects these renderings.) -/
def pyRepr : JVal → String
  | .null => "None"
  | .bool true => "True"
  | .bool false => "False"
  | .num n => toString n
  | .str s => "\x27" ++ s ++ "\x27"
  | .list xs => "[" ++ pyReprList xs ++ "]"
  | .dict kvs => "\x7b" ++ pyReprDict kvs ++ "\x7d"

/-- Comma-separated `repr`s of the elements of a list. -/
def pyReprList : List JVal → String
  | [] => ""
  | [x] => pyRepr x
  | x :: y :: rest => pyRepr x ++ ", " ++ pyReprList (y :: rest)

/-- Comma-separated `repr`s of the entries of a dict. -/
def pyReprDict : List (String × JVal) → String
  | [] => ""
  | [(k, v)] => "\x27" ++ k ++ "\x27: " ++ pyRepr v
  | (k, v) :: e :: rest =>
      "\x27" ++ k ++ "\x27: " ++ pyRepr v ++ ", " ++ pyReprDict (e :: rest)
end

/-- Python `str(v)` (an f-string interpolation): identity on strings,
`repr`-like otherwise. -/
def pyStr : JVal → String
  | .str s => s
  | v => pyRepr v

/-- Python `v == s` for a value against a string literal (equal only when
`v` is that string). -/
def jvalIsStr (v : JVal) (s : String) : Bool :=
  match v with
  | .str t => t = s
  | _ => false

/-- `ALLOWED_TOOLS = {"go", "click", "type"}` (app.py line 101). -/
def ALLOWED_TOOLS : List String := ["go", "click", "type"]

/-- Python hashability of a JSON value: lists and dicts are unhashable,
every other JSON value (null, booleans, numbers, strings) is hashable. -/
def jvalHashable : JVal → Bool
  | .list _ => false
  | .dict _ => false
  | _ => true

/-- Python `tool in ALLOWED_TOOLS` where `ALLOWED_TOOLS` is a set: the
membership test hashes `tool` first, so an unhashable value (a JSON array
or object) raises `TypeError` (`Except.error`); a hashable non-string value
is never a member. -/
def toolAllowed : JVal → Except Unit Bool
  | .str s => .ok (ALLOWED_TOOLS.contains s)
  | .list _ => .error ()
  | .dict _ => .error ()
  | _ => .ok false

/-- The per-step checks of the loop in `validate_plan` (app.py lines
116-134) applied to one step: `Except.error` when the membership test on a
`tool` value raises `TypeError` (a JSON array/object tool), otherwise
`.ok none` when the step passes every check and `.ok (some suffix)` with
the first failing check's message, minus the `"Step {i}"` prefix that
every one of those messages shares. -/
def stepIssue (step : JVal) : Except Unit (Option String) :=
  match step with
  | .dict kvs =>
    let tool := (dget kvs "tool").getD .null
    let args := (dget kvs "args").getD (.dict [])
    match toolAllowed tool with
    | .error e => .error e
    | .ok mem =>
      if ¬ mem then .ok (some (": tool \x27" ++ (pyStr tool ++ "\x27 not allowed.")))
      else
        match args with
        | .dict akvs =>
          if jvalIsStr tool "go" then
            if ¬ keySetEq (akvs.map Prod.fst) ["url"] then
              .ok (some ": go expects args \x7burl\x7d only.")
            else .ok none
          else if jvalIsStr tool "click" then
            if ¬ keySetEq (akvs.map Prod.fst) ["text"] then
              .ok (some ": click expects args \x7btext\x7d only.")
            else .ok none
          else if jvalIsStr tool "type" then
            if ¬ keySetEq (akvs.map Prod.fst) ["label", "value"] then
              .ok (some ": type expects args \x7blabel, value\x7d only.")
            else .ok none
          else .ok none
        | _ => .ok (some ": args must be an object.")
  | _ => .ok (some " must be an object.")

/-- The per-step body of the loop in `validate_plan`: the issue found by
`stepIssue`, carried by its index-qualified message. -/
def checkStep (i : Nat) (step : JVal) : Except Unit (Option String) :=
  (stepIssue step).map (fun o => o.map (fun m => "Step " ++ (toString i ++ m)))

/-- The `for i, step in enumerate(plan)` loop of `validate_plan`: first
violation wins, otherwise `(True, "ok")`; a `TypeError` raised by a step's
membership test propagates out of the loop. -/
def validateSteps : Nat → List JVal → Except Unit (Bool × String)
  | _, [] => .ok (true, "ok")
  | i, step :: rest =>
    match checkStep i step with
    | .error e => .error e
    | .ok (some msg) => .ok (false, msg)
    | .ok none => validateSteps (i + 1) rest

/-- `validate_plan` (app.py lines 104-136): the structural guardrail between
the planner's free-form output and the sandbox.  It returns a verdict for
every input except one with a step whose `tool` value is a JSON
array/object: there the set-membership test at app.py line 121 raises
`TypeError` (`Except.error`) instead of returning a verdict. -/
def validate_plan (plan : JVal) : Except Unit (Bool × String) :=
  match plan with
  | .list xs =>
    if xs.length = 0 then .ok (false, "Plan is empty.")
    else if xs.length > 10 then .ok (false, "Plan too long (max 10 steps).")
    else validateSteps 0 xs
  | _ => .ok (false, "Plan must be a list.")

/-- `DEFAULT_PRODUCT_URL` (app.py line 59, the default of the environment
tunable). -/
def DEFAULT_PRODUCT_URL : String :=
  "https://chikarahouses.com/products/hardcover-bound-notebook-3"

/-- `deterministic_demo_plan` (app.py lines 142-157). -/
def deterministic_demo_plan (note_text : String) : JVal :=
  .list
    [ .dict [("tool", .str "go"), ("args", .dict [("url", .str DEFAULT_PRODUCT_URL)])]
    , .dict [("tool", .str "click"), ("args", .dict [("text", .str "Add to cart")])]
    , .dict [("tool", .str "click"), ("args", .dict [("text", .str "View cart")])]
    , .dict [("tool", .str "type"),
             ("args", .dict [("label", .str "Order special instructions"),
                             ("value", .str note_text)])] ]

/-- Oracle for the effectful parts of `groq_plan` (app.py lines 160-209):
whether `groq_client` is configured (`GROQ_API_KEY` non-empty), whether the
completion call `await asyncio.to_thread(_call)` raises (network/API error,
or `content` being `None`), and otherwise the result of `json.loads` on the
returned content (`none` = not valid JSON, i.e. `json.loads` raises). -/
structure PlannerEnv where
  hasClient : Bool
  callRaises : Bool
  parsed : Option JVal

/-- `groq_plan` (app.py lines 160-209).  `Except.error ()` models an uncaught
Python exception propagating to the caller.  The completion call at line 200
is OUTSIDE the `try` block of lines 202-209, so when it raises, the exception
propagates; `json.loads` failures, validator rejections and a `TypeError`
raised by the validator — all inside the `try` — fall back to the
deterministic plan (the catch-all match arm covers both the `.ok (false, _)`
verdict and the `.error` raise).  `user_goal` only feeds the prompt (part of
the oracle), so the embedded control flow ignores it. -/
def groq_plan (env : PlannerEnv) (user_goal note_text : String) : Except Unit JVal :=
  if ¬ env.hasClient then .ok (deterministic_demo_plan note_text)
  else if env.callRaises then .error ()
  else
    match env.parsed with
    | none => .ok (deterministic_demo_plan note_text)
    | some plan =>
      match validate_plan plan with
      | .ok (true, _) => .ok plan
      | _ => .ok (deterministic_demo_plan note_text)

/-!
## The in-sandbox runner (the `PLAYWRIGHT_RUNNER` program, app.py lines 271-375)

The runner drives a real browser; we model the browser page as an abstract
state `Page` exposing exactly what the runner reads from it (`page.url`,
`await page.title()`, `await page.content()`), and the body of the per-step
`try` block (the dispatch to `page.goto` / `click_by_text` / `type_by_label`
plus the success-path `url`/`title` capture) as an oracle `attempt` returning
the page state the action left behind together with `none` on success or
`some (str e)` when the block raised.  A plan reaching the runner went
through `validate_plan`, so each step is a dict providing both `step["tool"]`
and `step["args"]`; we model such a step as a `ReqStep` record.
-/

/-- Abstract browser page state, exposing what the runner reads. -/
structure Page where
  url : String
  title : String
  html : String

/-- A step as the runner reads it: `step["tool"]` and `step["args"]`
(both present on every validated plan). -/
structure ReqStep where
  tool : String
  args : JVal

/-- One entry of `out["steps"]` (runner line `step_out = {...}`). -/
structure StepOut where
  idx : Nat
  tool : String
  args : JVal
  ok : Bool
  error : Option String
  url : Option String
  title : Option String

/-- The `out` document the runner writes to `/work/result.json`.  In the
source the final fields start as `None` and are overwritten by the
unconditional capture after the loop; by then they are always set, so they
are modelled as plain strings. -/
structure ExecResult where
  ok : Bool
  steps : List StepOut
  final_url : String
  final_title : String
  final_dom_preview : String
  final_screenshot : String

/-- `FINAL_SCREENSHOT_PATH = "/work/final.png"` (runner source). -/
def FINAL_SCREENSHOT_PATH : String := "/work/final.png"

/-- Python single-character `s.replace(c, r)` (the runner only replaces
one-character patterns, for which substring replacement is the
character-wise map). -/
def pyReplaceChar (c r : Char) (s : String) : String :=
  ⟨s.data.map (fun x => if x = c then r else x)⟩

/-- Python `s[:n]` (code-point slicing). -/
def pySliceTo (n : Nat) (s : String) : String :=
  ⟨s.data.take n⟩

/-- `dom_preview` (runner source): replace newlines and tabs by spaces, then
truncate to `DOM_PREVIEW_LIMIT` characters.  The limit is an environment
tunable, so it is an explicit parameter here. -/
def dom_preview (limit : Nat) (html : String) : String :=
  pySliceTo limit (pyReplaceChar '\t' ' ' (pyReplaceChar '\n' ' ' html))

/-- The `for idx, step in enumerate(plan)` loop of the runner's `main`:
returns the `out["steps"]` list, the page state when the loop halts, and the
final `out["ok"]` flag.  On a failed attempt the step is recorded with
`ok=False` and the error text, and the loop breaks. -/
def runLoop (attempt : Page → ReqStep → Page × Option String) :
    Nat → Page → List ReqStep → List StepOut × Page × Bool
  | _, page, [] => ([], page, true)
  | idx, page, s :: rest =>
    match attempt page s with
    | (page2, none) =>
      let so : StepOut :=
        { idx := idx, tool := s.tool, args := s.args, ok := true,
          error := none, url := some page2.url, title := some page2.title }
      let r := runLoop attempt (idx + 1) page2 rest
      (so :: r.1, r.2)
    | (page2, some e) =>
      let so : StepOut :=
        { idx := idx, tool := s.tool, args := s.args, ok := false,
          error := some e, url := none, title := none }
      ([so], page2, false)

/-- The page state at the moment the step loop halts (either all steps
succeeded or it broke at the first failure). -/
def pageAfter (attempt : Page → ReqStep → Page × Option String) :
    Page → List ReqStep → Page
  | page, [] => page
  | page, s :: rest =>
    match attempt page s with
    | (page2, none) => pageAfter attempt page2 rest
    | (page2, some _) => page2

/-- The runner's `main` (runner source): run the step loop, then
unconditionally capture `final_url`, `final_title`, the screenshot (to the
fixed path, recorded in the document as the constant `"artifacts/final.png"`
set when `out` is initialised), and the truncated DOM preview. -/
def runner_main (attempt : Page → ReqStep → Page × Option String)
    (limit : Nat) (page0 : Page) (plan : List ReqStep) : ExecResult :=
  let r := runLoop attempt 0 page0 plan
  { ok := r.2.2
  , steps := r.1
  , final_url := r.2.1.url
  , final_title := r.2.1.title
  , final_dom_preview := dom_preview limit r.2.1.html
  , final_screenshot := "artifacts/final.png" }

/-!
## The orchestrator `run_in_docker` (app.py lines 378-447)

The docker process and the work-area filesystem are the oracle `DockerEnv`:
the process exit code, the captured streams, whether `result.json` and
`final.png` exist in the work area after the process exits, and the result of
`json.loads` on `result.json`'s content (`none` = unparseable, in which case
the uncaught exception propagates).  The second component of the returned
pair records the file names copied into the durable `artifacts/` store.
-/

/-- `ARTIFACTS_DIR` (app.py line 53, default of the environment tunable). -/
def ARTIFACTS_DIR : String := "artifacts"

/-- Python `s[-n:]`: the last `n` characters (all of `s` when shorter). -/
def pyTail (n : Nat) (s : String) : String :=
  ⟨s.data.drop (s.data.length - n)⟩

/-- Oracle for one docker run: exit code, captured streams, presence of the
two expected artifacts in the work area, and the parse of `result.json`. -/
structure DockerEnv where
  returncode : Int
  stdout : String
  stderr : String
  result_exists : Bool
  final_exists : Bool
  result_parsed : Option JVal

/-- `run_in_docker` (app.py lines 378-447), from the point where the process
has exited (the preceding work-area writes of `request.json` / `runner.py`
touch only the ephemeral work directory).  Returns the response dict
together with the list of file names copied into `ARTIFACTS_DIR`;
`Except.error ()` models the uncaught exception when `result.json` exists
but does not parse. -/
def run_in_docker (env : DockerEnv) (run_id : String) :
    Except Unit (JVal × List String) :=
  if env.returncode ≠ 0 then
    .ok (.dict
      [ ("ok", .bool false)
      , ("docker_returncode", .num env.returncode)
      , ("stdout", .str (pyTail 3000 env.stdout))
      , ("stderr", .str (pyTail 3000 env.stderr)) ], [])
  else if ¬ (env.result_exists && env.final_exists) then
    .ok (.dict
      [ ("ok", .bool false)
      , ("docker_returncode", .num env.returncode)
      , ("stdout", .str (pyTail 2000 env.stdout))
      , ("stderr", .str (pyTail 3000 (env.stderr ++ "\nMissing result.json or final.png"))) ], [])
  else
    match env.result_parsed with
    | none => .error ()
    | some result =>
      .ok (.dict
        [ ("ok", .bool true)
        , ("run_id", .str run_id)
        , ("result", result)
        , ("final_screenshot", .str (ARTIFACTS_DIR ++ "/" ++ (run_id ++ "_final.png")))
        , ("final_output_json", .str (ARTIFACTS_DIR ++ "/" ++ (run_id ++ "_output.json")))
        , ("logs", .dict [ ("stdout", .str (pyTail 2000 env.stdout))
                         , ("stderr", .str (pyTail 2000 env.stderr)) ]) ]
      , [run_id ++ "_final.png", run_id ++ "_output.json"])

/-- The plan-selection logic of the `api_run` route (app.py lines 484-495):
take the request's `plan` field if it is a list, otherwise generate one with
`groq_plan` (which may raise, propagated here as `Except.error`); then
replace any plan `validate_plan` rejects with the deterministic demo plan.
The `validate_plan` call sits outside any `try` in `api_run`, so a
`TypeError` it raises propagates too.  The returned plan is the one
execution proceeds with. -/
def api_run_select_plan (env : PlannerEnv) (goal note_text : String)
    (data_plan : Option JVal) : Except Unit JVal :=
  match (match data_plan with
         | some p => if isListV p then Except.ok p else groq_plan env goal note_text
         | none => groq_plan env goal note_text) with
  | .error e => .error e
  | .ok plan =>
    match validate_plan plan with
    | .error e => .error e
    | .ok v =>
      if v.1 then .ok plan
      else .ok (deterministic_demo_plan note_text)

/-!
## Spec-side predicates

These follow the specification's wording, to be compared with the functions
embedded from the source above.
-/

/-- The exact argument-key set the specification's closed grammar demands for
each tool (`go`→`{url}`, `click`→`{text}`, `type`→`{label, value}`). -/
def requiredKeys : String → List String
  | "go" => ["url"]
  | "click" => ["text"]
  | "type" => ["label", "value"]
  | _ => []

/-- Spec-side conformance of a single step: a record whose `tool` is one of
the three allowed tool strings and whose `args` is a record with exactly the
required key set for that tool. -/
def stepConforms (step : JVal) : Bool :=
  match step with
  | .dict kvs =>
    (match (dget kvs "tool").getD .null, (dget kvs "args").getD (.dict []) with
     | .str t, .dict akvs =>
        ALLOWED_TOOLS.contains t && keySetEq (akvs.map Prod.fst) (requiredKeys t)
     | _, _ => false)
  | _ => false

/-- The step's `tool` value (as `validate_plan` reads it) is hashable, so
the membership test on it returns instead of raising; a step that is not a
record never reaches the membership test. -/
def stepToolHashable : JVal → Bool
  | .dict kvs => jvalHashable ((dget kvs "tool").getD .null)
  | _ => true

/-- The execution of a plan by `attempt` succeeds on each of the first `k`
steps and raises on step `k` (0-based): the spec's "the k-th executed step
fails (target resolution error or timeout)". -/
def failsAt (attempt : Page → ReqStep → Page × Option String) :
    Page → List ReqStep → Nat → Prop
  | _, [], _ => False
  | p, s :: _, 0 => (attempt p s).2 ≠ none
  | p, s :: rest, Nat.succ k => (attempt p s).2 = none ∧ failsAt attempt (attempt p s).1 rest k

/-- Python `isinstance(data.get("plan"), list)` on the request body's `plan`
field (`False` when the field is absent). -/
def planFieldIsList : Option JVal → Bool
  | some q => isListV q
  | none => false

/-!
## Validator lemmas
-/

/-- A value on which the set-membership test returns `True` is one of the
three tool strings. -/
theorem toolAllowed_elim (v : JVal) (h : toolAllowed v = .ok true) :
    v = .str "go" ∨ v = .str "click" ∨ v = .str "type" := by
  cases v with
  | str s =>
    have hc : ALLOWED_TOOLS.contains s = true := by
      simpa [toolAllowed] using h
    have hs : s = "go" ∨ s = "click" ∨ s = "type" := by
      have h2 : s ∈ ALLOWED_TOOLS := by simpa [List.contains] using hc
      simpa [ALLOWED_TOOLS] using h2
    rcases hs with h | h | h <;> simp [h]
  | null => simp [toolAllowed] at h
  | bool b => simp [toolAllowed] at h
  | num n => simp [toolAllowed] at h
  | list xs => simp [toolAllowed] at h
  | dict kvs => simp [toolAllowed] at h

theorem requiredKeys_go : requiredKeys "go" = ["url"] := rfl

theorem requiredKeys_click : requiredKeys "click" = ["text"] := rfl

theorem requiredKeys_type : requiredKeys "type" = ["label", "value"] := rfl

/-- A choice between two returned results never raises. -/
theorem ite_ok_ne_error (c : Prop) [Decidable c] (a b : Option String) :
    (if c then (Except.ok a : Except Unit (Option String)) else Except.ok b) ≠
      Except.error () := by
  split <;> simp

/-- On a step whose tool value is hashable, the per-step check does not
raise, and it passes exactly on the spec's conforming steps. -/
theorem stepIssue_hashable_spec (step : JVal) (hh : stepToolHashable step = true) :
    stepIssue step ≠ .error () ∧
    (stepIssue step = .ok none ↔ stepConforms step = true) := by
  cases step with
  | dict kvs =>
    have hh2 : jvalHashable ((dget kvs "tool").getD .null) = true := by
      simpa [stepToolHashable] using hh
    cases htool : (dget kvs "tool").getD .null with
    | str t =>
      by_cases hc : ALLOWED_TOOLS.contains t = true
      · rcases (by simpa [ALLOWED_TOOLS] using hc : t = "go" ∨ t = "click" ∨ t = "type")
          with h | h | h <;> subst h <;>
        cases hargs : (dget kvs "args").getD (.dict []) <;>
          simp [stepIssue, stepConforms, htool, hargs, toolAllowed, hc, jvalIsStr] <;>
        constructor <;>
          first
          | exact ite_ok_ne_error _ _ _
          | (split <;>
              simp_all [requiredKeys_go, requiredKeys_click, requiredKeys_type])
      · have hm : t ∉ ALLOWED_TOOLS := by
          intro hmem
          exact hc (by simpa [List.contains] using hmem)
        cases hargs : (dget kvs "args").getD (.dict []) <;>
          simp [stepIssue, stepConforms, htool, hargs, toolAllowed, hc, hm]
    | null => simp [stepIssue, stepConforms, htool, toolAllowed]
    | bool b => simp [stepIssue, stepConforms, htool, toolAllowed]
    | num n => simp [stepIssue, stepConforms, htool, toolAllowed]
    | list xs => rw [htool] at hh2; simp [jvalHashable] at hh2
    | dict kvs2 => rw [htool] at hh2; simp [jvalHashable] at hh2
  | null => simp [stepIssue, stepConforms]
  | bool b => simp [stepIssue, stepConforms]
  | num n => simp [stepIssue, stepConforms]
  | str s => simp [stepIssue, stepConforms]
  | list xs => simp [stepIssue, stepConforms]

/-- On a plan all of whose steps have hashable tool values, the per-step
loop returns a verdict whose flag is conformance of every step (the index
argument only feeds messages). -/
theorem validateSteps_ok (xs : List JVal) :
    ∀ i, (∀ s ∈ xs, stepToolHashable s = true) →
      ∃ m, validateSteps i xs = .ok (xs.all stepConforms, m) := by
  induction xs with
  | nil =>
    intro i h
    exact ⟨"ok", rfl⟩
  | cons s rest ih =>
    intro i h
    have hs := h s (List.mem_cons_self s rest)
    have hrest : ∀ x ∈ rest, stepToolHashable x = true :=
      fun x hx => h x (List.mem_cons_of_mem s hx)
    obtain ⟨hne, hiff⟩ := stepIssue_hashable_spec s hs
    cases hsi : stepIssue s with
    | error e =>
      cases e
      exact absurd hsi hne
    | ok o =>
      cases o with
      | none =>
        have hc : stepConforms s = true := hiff.mp hsi
        obtain ⟨m, hm⟩ := ih (i + 1) hrest
        exact ⟨m, by simp [validateSteps, checkStep, hsi, Except.map, hc, hm]⟩
      | some msg =>
        have hc : stepConforms s = false := by
          cases hcs : stepConforms s with
          | true =>
            have h2 := hiff.mpr hcs
            rw [hsi] at h2
            exact absurd h2 (by simp)
          | false => rfl
        exact ⟨"Step " ++ (toString i ++ msg),
          by simp [validateSteps, checkStep, hsi, Except.map, Option.map, hc]⟩

/-- With the length guards passed, `validate_plan` is the per-step loop. -/
theorem validate_plan_list (xs : List JVal) (h1 : xs.length ≠ 0)
    (h2 : ¬ xs.length > 10) : validate_plan (.list xs) = validateSteps 0 xs := by
  simp [validate_plan, h1, h2]

/-- C2 counterexample: a one-step plan whose tool is a JSON array makes
`validate_plan` raise `TypeError` — the membership test `tool not in
ALLOWED_TOOLS` hashes the tool value against the set — instead of
returning an invalid verdict as the claim asserts for every tool outside
the closed set. -/
theorem c2_counterexample :
    validate_plan (.list [.dict [("tool", .list []), ("args", .dict [])]]) =
      .error () := rfl

/-- C2 (amended): for a plan that is a list of 1 to 10 step records in
which every step's tool value is hashable (not a JSON array/object),
`validate_plan` returns a verdict, and it accepts exactly when every step
is a record whose tool is in the closed set \x7bgo, click, type\x7d and
whose args key set equals the exact required set for that tool; any step
violating either condition makes it reject.  A step whose tool value is a
JSON array/object instead makes `validate_plan` raise `TypeError` (see the
counterexample). -/
theorem c2_validate_iff_conformance (xs : List JVal)
    (h1 : 1 ≤ xs.length) (h2 : xs.length ≤ 10)
    (h3 : ∀ s ∈ xs, stepToolHashable s = true) :
    ∃ v, validate_plan (.list xs) = .ok v ∧
      (v.1 = true ↔ ∀ s ∈ xs, stepConforms s = true) := by
  obtain ⟨m, hm⟩ := validateSteps_ok xs 0 h3
  refine ⟨(xs.all stepConforms, m), ?_, ?_⟩
  · rw [validate_plan_list xs (by omega) (by omega), hm]
  · simp [List.all_eq_true]

/-- C2 witness: a conforming singleton plan validates, a step with an
extra args key does not. -/
theorem c2_witness :
    (∃ v, validate_plan (.list [.dict [("tool", .str "go"),
        ("args", .dict [("url", .str "https://example.com")])]]) = .ok v ∧
      (v.1 = true ↔ ∀ s ∈ [JVal.dict [("tool", .str "go"),
        ("args", .dict [("url", .str "https://example.com")])]],
          stepConforms s = true)) ∧
    (∃ v, validate_plan (.list [.dict [("tool", .str "go"),
        ("args", .dict [("url", .str "u"), ("x", .null)])]]) = .ok v ∧
      (v.1 = true ↔ ∀ s ∈ [JVal.dict [("tool", .str "go"),
        ("args", .dict [("url", .str "u"), ("x", .null)])]],
          stepConforms s = true)) :=
  ⟨c2_validate_iff_conformance _ (by decide) (by decide) (by decide),
   c2_validate_iff_conformance _ (by decide) (by decide) (by decide)⟩

/-- A string starting with `"Step "` is not a string starting with `'P'`. -/
theorem step_prefix_ne (t u : String) (hu : u.data.head? = some 'P') :
    ¬ ("Step " ++ t = u) := by
  intro h
  have hS : ("Step " ++ t).data.head? = some 'S' := rfl
  rw [congrArg String.data h, hu] at hS
  exact absurd hS (by decide)

/-- Every verdict the per-step loop returns carries either the message
`"ok"` or an index-qualified step message. -/
theorem validateSteps_snd_shape (i : Nat) (xs : List JVal) (b : Bool) (m : String)
    (h : validateSteps i xs = .ok (b, m)) :
    m = "ok" ∨ ∃ t, m = "Step " ++ t := by
  induction xs generalizing i with
  | nil =>
    simp only [validateSteps] at h
    injection h with h2
    exact Or.inl (congrArg Prod.snd h2).symm
  | cons s rest ih =>
    cases hsi : stepIssue s with
    | error e =>
      have he : validateSteps i (s :: rest) = .error e := by
        simp [validateSteps, checkStep, hsi, Except.map]
      rw [he] at h
      exact absurd h (by simp)
    | ok o =>
      cases o with
      | none =>
        have he : validateSteps i (s :: rest) = validateSteps (i + 1) rest := by
          simp [validateSteps, checkStep, hsi, Except.map, Option.map]
        rw [he] at h
        exact ih (i + 1) h
      | some msg =>
        have he : validateSteps i (s :: rest) =
            .ok (false, "Step " ++ (toString i ++ msg)) := by
          simp [validateSteps, checkStep, hsi, Except.map, Option.map]
        rw [he] at h
        injection h with h2
        exact Or.inr ⟨toString i ++ msg, (congrArg Prod.snd h2).symm⟩

/-- The per-step loop never returns one of the three length/shape messages
of the pre-checks. -/
theorem validateSteps_snd_ne (i : Nat) (xs : List JVal) (b : Bool) (m : String)
    (h : validateSteps i xs = .ok (b, m)) :
    m ≠ "Plan must be a list." ∧ m ≠ "Plan is empty." ∧
    m ≠ "Plan too long (max 10 steps)." := by
  rcases validateSteps_snd_shape i xs b m h with h2 | ⟨t, h2⟩ <;> subst h2
  · exact ⟨by decide, by decide, by decide⟩
  · exact ⟨step_prefix_ne t _ rfl, step_prefix_ne t _ rfl, step_prefix_ne t _ rfl⟩

/-- C6: `validate_plan` rejects a non-list input, an empty list and a list
of more than 10 steps, each with its specific reason; these checks come
before any per-step check (the length verdicts do not depend on step
contents), and a list of 1 to 10 steps is never rejected on grounds of
length: its outcome is the per-step loop's outcome, and whenever that is a
verdict its reason is never one of the three length/shape reasons. -/
theorem c6_length_checks (v : JVal) (xs : List JVal) :
    (isListV v = false → validate_plan v = .ok (false, "Plan must be a list.")) ∧
    (xs.length = 0 → validate_plan (.list xs) = .ok (false, "Plan is empty.")) ∧
    (xs.length > 10 →
      validate_plan (.list xs) = .ok (false, "Plan too long (max 10 steps).")) ∧
    (1 ≤ xs.length → xs.length ≤ 10 →
      validate_plan (.list xs) = validateSteps 0 xs ∧
      ∀ b m, validate_plan (.list xs) = .ok (b, m) →
        m ≠ "Plan must be a list." ∧ m ≠ "Plan is empty." ∧
        m ≠ "Plan too long (max 10 steps).") := by
  refine ⟨?_, ?_, ?_, ?_⟩
  · intro h
    cases v <;> simp_all [isListV, validate_plan]
  · intro h
    simp [validate_plan, h]
  · intro h
    have h0 : xs.length ≠ 0 := by omega
    simp [validate_plan, h0, h]
  · intro h1 h2
    have he : validate_plan (.list xs) = validateSteps 0 xs :=
      validate_plan_list xs (by omega) (by omega)
    refine ⟨he, ?_⟩
    intro b m hm
    rw [he] at hm
    exact validateSteps_snd_ne 0 xs b m hm

/-- C6 witness: the three rejections and a 1-step plan's verdict at
concrete inputs. -/
theorem c6_witness :
    validate_plan (.str "plan") = .ok (false, "Plan must be a list.") ∧
    validate_plan (.list []) = .ok (false, "Plan is empty.") ∧
    validate_plan (.list (List.replicate 11 .null)) =
      .ok (false, "Plan too long (max 10 steps).") ∧
    validate_plan (.list [.null]) = validateSteps 0 [.null] :=
  ⟨(c6_length_checks (.str "plan") []).1 rfl,
   (c6_length_checks .null []).2.1 rfl,
   (c6_length_checks .null (List.replicate 11 .null)).2.2.1 (by decide),
   ((c6_length_checks .null [.null]).2.2.2 (by decide) (by decide)).1⟩

/-- The deterministic demo plan passes validation, for every note text. -/
theorem validate_demo_plan (note_text : String) :
    validate_plan (deterministic_demo_plan note_text) = .ok (true, "ok") := rfl

/-- C7: with no completion service configured, the planner returns exactly
the four-step deterministic plan — go to the default product URL, click
"Add to cart", click "View cart", type the note into "Order special
instructions" — for every goal, and that plan passes `validate_plan`. -/
theorem c7_no_client_deterministic (env : PlannerEnv)
    (user_goal note_text : String) (h : env.hasClient = false) :
    groq_plan env user_goal note_text =
      .ok (.list
        [ .dict [("tool", .str "go"), ("args", .dict [("url", .str DEFAULT_PRODUCT_URL)])]
        , .dict [("tool", .str "click"), ("args", .dict [("text", .str "Add to cart")])]
        , .dict [("tool", .str "click"), ("args", .dict [("text", .str "View cart")])]
        , .dict [("tool", .str "type"),
                 ("args", .dict [("label", .str "Order special instructions"),
                                 ("value", .str note_text)])] ]) ∧
    validate_plan (deterministic_demo_plan note_text) = .ok (true, "ok") := by
  constructor
  · simp [groq_plan, h, deterministic_demo_plan]
  · exact validate_demo_plan note_text

/-- C7 witness: the no-client planner at concrete inputs. -/
theorem c7_witness :
    groq_plan ⟨false, false, none⟩ "" "" =
      .ok (.list
        [ .dict [("tool", .str "go"), ("args", .dict [("url", .str DEFAULT_PRODUCT_URL)])]
        , .dict [("tool", .str "click"), ("args", .dict [("text", .str "Add to cart")])]
        , .dict [("tool", .str "click"), ("args", .dict [("text", .str "View cart")])]
        , .dict [("tool", .str "type"),
                 ("args", .dict [("label", .str "Order special instructions"),
                                 ("value", .str "")])] ]) ∧
    validate_plan (deterministic_demo_plan "") = .ok (true, "ok") :=
  c7_no_client_deterministic ⟨false, false, none⟩ "" "" rfl

/-!
## Planner fallback discipline
-/

/-- Whenever the completion call does not itself raise, `groq_plan` returns
a plan that passes validation: non-JSON content, validator-rejected
structures and a `TypeError` raised by the validator (all inside the `try`)
fall back to the deterministic demo plan. -/
theorem groq_plan_ok_valid (env : PlannerEnv) (user_goal note_text : String)
    (h : env.hasClient = true → env.callRaises = false) :
    ∃ p m, groq_plan env user_goal note_text = .ok p ∧
      validate_plan p = .ok (true, m) := by
  cases hc : env.hasClient with
  | false =>
    exact ⟨deterministic_demo_plan note_text, "ok", by simp [groq_plan, hc],
      validate_demo_plan note_text⟩
  | true =>
    have hr : env.callRaises = false := h hc
    cases hp : env.parsed with
    | none =>
      exact ⟨deterministic_demo_plan note_text, "ok",
        by simp [groq_plan, hc, hr, hp], validate_demo_plan note_text⟩
    | some plan =>
      cases hv : validate_plan plan with
      | error e =>
        exact ⟨deterministic_demo_plan note_text, "ok",
          by simp [groq_plan, hc, hr, hp, hv], validate_demo_plan note_text⟩
      | ok v =>
        rcases v with ⟨b, m⟩
        cases b with
        | true =>
          exact ⟨plan, m, by simp [groq_plan, hc, hr, hp, hv], hv⟩
        | false =>
          exact ⟨deterministic_demo_plan note_text, "ok",
            by simp [groq_plan, hc, hr, hp, hv], validate_demo_plan note_text⟩

/-- C1 counterexample: a configured completion service whose call raises
makes `groq_plan` propagate the exception instead of returning the fallback
plan, so the planner does fail outward on that failure of the completion
step. -/
theorem c1_counterexample :
    groq_plan ⟨true, true, none⟩ "add the product to the cart" "note" =
      .error () := rfl

/-- C1 (amended): `plan(goal, note_text)` never fails outward PROVIDED the
completion call itself does not raise (no configured service, non-JSON
output, and a structure on which the validator rejects or raises all yield
the deterministic demo plan); in every such case the returned plan passes
`validate_plan`.  A raising completion call, by contrast, propagates (see
the counterexample): the call sits outside the planner's `try` block. -/
theorem c1_planner_never_fails (env : PlannerEnv) (user_goal note_text : String)
    (h : env.hasClient = true → env.callRaises = false) :
    ∃ p m, groq_plan env user_goal note_text = .ok p ∧
      validate_plan p = .ok (true, m) :=
  groq_plan_ok_valid env user_goal note_text h

/-- C1 witness: the amended fallback at a concrete failing parse. -/
theorem c1_witness :
    ∃ p m, groq_plan ⟨true, false, none⟩ "goal" "note" = .ok p ∧
      validate_plan p = .ok (true, m) :=
  c1_planner_never_fails ⟨true, false, none⟩ "goal" "note" (fun _ => rfl)

/-!
## The run endpoint's plan selection
-/

/-- C9 counterexample: a request whose `plan` field is not a list, sent
when the completion service is configured but its call raises, makes the
run endpoint's plan selection propagate the exception — the run IS refused
in that corner, against the claim's "for every request". -/
theorem c9_counterexample :
    api_run_select_plan ⟨true, true, none⟩ "goal" "note" (some (.str "not a plan")) =
      .error () := rfl

/-- C9 (amended): the run endpoint returns no validation error to the
caller.  A supplied plan that is a list on which `validate_plan` returns a
rejection verdict is silently replaced by the deterministic demo plan built
from `note_text` and execution proceeds; a supplied list plan on which
`validate_plan` raises `TypeError` (a step tool that is a JSON
array/object) propagates the exception, refusing the run; a missing or
non-list plan field is replaced by a freshly planned plan and — provided
the completion call does not itself raise (it propagates when it does, see
the counterexample) — the selection succeeds and execution proceeds with a
plan that passes `validate_plan`. -/
theorem c9_plan_replacement (env : PlannerEnv) (goal note_text : String)
    (data_plan : Option JVal) (h : env.hasClient = true → env.callRaises = false) :
    (∀ q v, data_plan = some q → isListV q = true → validate_plan q = .ok v →
      v.1 = false →
      api_run_select_plan env goal note_text data_plan =
        .ok (deterministic_demo_plan note_text)) ∧
    (∀ q, data_plan = some q → isListV q = true → validate_plan q = .error () →
      api_run_select_plan env goal note_text data_plan = .error ()) ∧
    (planFieldIsList data_plan = false →
      ∃ p m, api_run_select_plan env goal note_text data_plan = .ok p ∧
        validate_plan p = .ok (true, m)) := by
  refine ⟨?_, ?_, ?_⟩
  · intro q v hq hl hv hfalse
    subst hq
    simp [api_run_select_plan, hl, hv, hfalse]
  · intro q hq hl hv
    subst hq
    simp [api_run_select_plan, hl, hv]
  · intro hnl
    obtain ⟨p, m, hp, hv⟩ := groq_plan_ok_valid env goal note_text h
    refine ⟨p, m, ?_, hv⟩
    cases data_plan with
    | none => simp [api_run_select_plan, hp, hv]
    | some q =>
      have hql : isListV q = false := by simpa [planFieldIsList] using hnl
      simp [api_run_select_plan, hql, hp, hv]

/-- C9 witness: a non-list plan field with no completion service configured
is replaced by a freshly planned (valid) plan. -/
theorem c9_witness :
    ∃ p m, api_run_select_plan ⟨false, false, none⟩ "goal" "note"
        (some (.str "not a plan")) = .ok p ∧ validate_plan p = .ok (true, m) :=
  (c9_plan_replacement ⟨false, false, none⟩ "goal" "note"
    (some (.str "not a plan")) (fun h => by cases h)).2.2 rfl

/-!
## DOM preview and orchestrator
-/

/-- C8: the DOM preview is the page markup with every newline and tab
replaced by a single space, truncated to the configured limit; hence its
length never exceeds the limit and it contains no newline or tab. -/
theorem c8_dom_preview (limit : Nat) (html : String) :
    dom_preview limit html =
      String.mk ((html.data.map
        (fun c => if c = '\n' ∨ c = '\t' then ' ' else c)).take limit) ∧
    (dom_preview limit html).length ≤ limit ∧
    '\n' ∉ (dom_preview limit html).data ∧
    '\t' ∉ (dom_preview limit html).data := by
  have hfuse : dom_preview limit html =
      String.mk ((html.data.map
        (fun c => if c = '\n' ∨ c = '\t' then ' ' else c)).take limit) := by
    simp only [dom_preview, pySliceTo, pyReplaceChar]
    congr 2
    rw [List.map_map]
    congr 1
    funext c
    by_cases h1 : c = '\n'
    · subst h1; decide
    · by_cases h2 : c = '\t'
      · subst h2; decide
      · simp [Function.comp, h1, h2]
  have hnomem : ∀ x : Char, x ∈ (dom_preview limit html).data →
      ∃ c, (if c = '\n' ∨ c = '\t' then ' ' else c) = x := by
    intro x hx
    rw [hfuse] at hx
    have hx2 : x ∈ html.data.map
        (fun c => if c = '\n' ∨ c = '\t' then ' ' else c) :=
      List.take_subset _ _ hx
    obtain ⟨c, hc, hfc⟩ := List.mem_map.mp hx2
    exact ⟨c, hfc⟩
  refine ⟨hfuse, ?_, ?_, ?_⟩
  · rw [hfuse]
    exact List.length_take_le _ _
  · intro hmem
    obtain ⟨c, hfc⟩ := hnomem _ hmem
    by_cases hb : c = '\n' ∨ c = '\t'
    · rw [if_pos hb] at hfc; exact absurd hfc (by decide)
    · rw [if_neg hb] at hfc; exact hb (Or.inl hfc)
  · intro hmem
    obtain ⟨c, hfc⟩ := hnomem _ hmem
    by_cases hb : c = '\n' ∨ c = '\t'
    · rw [if_pos hb] at hfc; exact absurd hfc (by decide)
    · rw [if_neg hb] at hfc; exact hb (Or.inr hfc)

/-- C10: the `final_screenshot` field of the result document the runner
writes is the constant string `"artifacts/final.png"` on every run,
independent of the sandbox path the screenshot file is written to
(`/work/final.png`) and of every run-id-qualified durable name the
orchestrator copies it to (`artifacts/<run_id>_final.png`). -/
theorem c10_final_screenshot_constant
    (attempt : Page → ReqStep → Page × Option String) (limit : Nat)
    (page0 : Page) (plan : List ReqStep) :
    (runner_main attempt limit page0 plan).final_screenshot = "artifacts/final.png" ∧
    "artifacts/final.png" ≠ FINAL_SCREENSHOT_PATH ∧
    ∀ run_id : String,
      ARTIFACTS_DIR ++ "/" ++ (run_id ++ "_final.png") ≠ "artifacts/final.png" := by
  refine ⟨rfl, by decide, ?_⟩
  intro run_id h
  have hl := congrArg String.length h
  rw [String.length_append, String.length_append, String.length_append] at hl
  have e1 : ARTIFACTS_DIR.length = 9 := rfl
  have e2 : ("/" : String).length = 1 := rfl
  have e3 : ("_final.png" : String).length = 10 := rfl
  have e4 : ("artifacts/final.png" : String).length = 19 := rfl
  rw [e1, e2, e3, e4] at hl
  omega

/-- A Python tail slice `s[-n:]` never exceeds `n` characters. -/
theorem pyTail_length_le (n : Nat) (s : String) : (pyTail n s).length ≤ n := by
  show (s.data.drop (s.data.length - n)).length ≤ n
  rw [List.length_drop]
  omega

/-- A string of at most `n` characters appended at the end survives whole in
the `n`-character tail slice. -/
theorem pyTail_append_suffix (n : Nat) (s t : String) (h : t.data.length ≤ n) :
    List.IsSuffix t.data (pyTail n (s ++ t)).data := by
  show List.IsSuffix t.data ((s ++ t).data.drop ((s ++ t).data.length - n))
  have hd : (s ++ t).data = s.data ++ t.data := rfl
  rw [hd, List.length_append, List.drop_append_eq_append_drop]
  have h0 : s.data.length + t.data.length - n - s.data.length = 0 := by omega
  rw [h0, List.drop_zero]
  exact List.suffix_append _ _

/-- C4: a non-zero sandbox exit code makes `run_in_docker` return the
failure document carrying the exit code and the bounded (≤ 3000 character)
tails of the captured stdout and stderr, and copy nothing into the durable
artifacts store. -/
theorem c4_nonzero_exit (env : DockerEnv) (run_id : String)
    (h : env.returncode ≠ 0) :
    run_in_docker env run_id =
      .ok (.dict
        [ ("ok", .bool false)
        , ("docker_returncode", .num env.returncode)
        , ("stdout", .str (pyTail 3000 env.stdout))
        , ("stderr", .str (pyTail 3000 env.stderr)) ], []) ∧
    (pyTail 3000 env.stdout).length ≤ 3000 ∧
    (pyTail 3000 env.stderr).length ≤ 3000 :=
  ⟨by simp [run_in_docker, h], pyTail_length_le _ _, pyTail_length_le _ _⟩

/-- C4 witness: a concrete non-zero exit. -/
theorem c4_witness :
    run_in_docker ⟨1, "out", "err", false, false, none⟩ "abc" =
      .ok (.dict
        [ ("ok", .bool false)
        , ("docker_returncode", .num 1)
        , ("stdout", .str (pyTail 3000 "out"))
        , ("stderr", .str (pyTail 3000 "err")) ], []) ∧
    (pyTail 3000 "out").length ≤ 3000 ∧
    (pyTail 3000 "err").length ≤ 3000 :=
  c4_nonzero_exit ⟨1, "out", "err", false, false, none⟩ "abc" (by decide)

/-- C5: a zero exit code with the result document or the screenshot missing
makes `run_in_docker` return a failure document distinguishable from a
launch failure — it records exit code 0 and its stderr diagnostics end in
the explicit missing-artifact note — and copy nothing into the durable
artifacts store. -/
theorem c5_missing_artifacts (env : DockerEnv) (run_id : String)
    (h0 : env.returncode = 0)
    (hma : (env.result_exists && env.final_exists) = false) :
    run_in_docker env run_id =
      .ok (.dict
        [ ("ok", .bool false)
        , ("docker_returncode", .num 0)
        , ("stdout", .str (pyTail 2000 env.stdout))
        , ("stderr", .str (pyTail 3000
            (env.stderr ++ "\nMissing result.json or final.png"))) ], []) ∧
    List.IsSuffix ("\nMissing result.json or final.png" : String).data
      (pyTail 3000 (env.stderr ++ "\nMissing result.json or final.png")).data :=
  ⟨by simp [run_in_docker, h0, hma],
   pyTail_append_suffix 3000 env.stderr _ (by decide)⟩

/-- C5 witness: a concrete clean exit with the artifacts absent. -/
theorem c5_witness :
    run_in_docker ⟨0, "out", "err", true, false, none⟩ "abc" =
      .ok (.dict
        [ ("ok", .bool false)
        , ("docker_returncode", .num 0)
        , ("stdout", .str (pyTail 2000 "out"))
        , ("stderr", .str (pyTail 3000
            ("err" ++ "\nMissing result.json or final.png"))) ], []) ∧
    List.IsSuffix ("\nMissing result.json or final.png" : String).data
      (pyTail 3000 ("err" ++ "\nMissing result.json or final.png")).data :=
  c5_missing_artifacts ⟨0, "out", "err", true, false, none⟩ "abc" rfl rfl

/-!
## The runner's halt-on-failure property
-/

/-- Behaviour of the runner's step loop on a plan whose execution succeeds
on the first `k` steps and fails at step `k` (0-based): the run is marked
failed, exactly the `k + 1` attempted steps are recorded in plan order (the
successful ones with `ok`, the failing one last with `ok=False` and its
error text), the loop's halt state is `pageAfter`, and the steps after the
failing one are irrelevant to the outcome. -/
theorem runLoop_spec (attempt : Page → ReqStep → Page × Option String) :
    ∀ (plan : List ReqStep) (k i : Nat) (p : Page), failsAt attempt p plan k →
      (runLoop attempt i p plan).2.2 = false ∧
      (runLoop attempt i p plan).1.length = k + 1 ∧
      (∀ j, j < k → ∃ so s, (runLoop attempt i p plan).1.get? j = some so ∧
        plan.get? j = some s ∧ so.ok = true ∧ so.error = none ∧ so.idx = i + j ∧
        so.tool = s.tool ∧ so.args = s.args) ∧
      (∃ so s, (runLoop attempt i p plan).1.get? k = some so ∧
        plan.get? k = some s ∧ so.ok = false ∧ so.error ≠ none ∧ so.idx = i + k ∧
        so.tool = s.tool ∧ so.args = s.args) ∧
      (runLoop attempt i p plan).2.1 = pageAfter attempt p plan ∧
      runLoop attempt i p plan = runLoop attempt i p (plan.take (k + 1)) := by
  intro plan
  induction plan with
  | nil =>
    intro k i p hf
    exact absurd hf (by simp [failsAt])
  | cons s rest ih =>
    intro k i p hf
    cases k with
    | zero =>
      have hne : (attempt p s).2 ≠ none := hf
      rcases ha : attempt p s with ⟨p2, r⟩
      cases r with
      | none => rw [ha] at hne; simp at hne
      | some e =>
        have he : runLoop attempt i p (s :: rest) =
            ([⟨i, s.tool, s.args, false, some e, none, none⟩], p2, false) := by
          simp only [runLoop]
          rw [ha]
        have he2 : runLoop attempt i p ((s :: rest).take 1) =
            ([⟨i, s.tool, s.args, false, some e, none, none⟩], p2, false) := by
          simp only [List.take_succ_cons, List.take_zero, runLoop]
          rw [ha]
        refine ⟨by rw [he], by rw [he]; rfl, ?_, ?_, ?_, ?_⟩
        · intro j hj
          omega
        · exact ⟨⟨i, s.tool, s.args, false, some e, none, none⟩, s,
            by rw [he]; rfl, rfl, rfl, by simp, by simp, rfl, rfl⟩
        · rw [he]
          simp [pageAfter, ha]
        · rw [he, he2]
    | succ k =>
      obtain ⟨h1, h2⟩ := hf
      rcases ha : attempt p s with ⟨p2, r⟩
      rw [ha] at h1 h2
      simp only at h1 h2
      subst h1
      obtain ⟨ih1, ih2, ih3, ih4, ih5, ih6⟩ := ih k (i + 1) p2 h2
      have he : runLoop attempt i p (s :: rest) =
          (⟨i, s.tool, s.args, true, none, some p2.url, some p2.title⟩ ::
            (runLoop attempt (i + 1) p2 rest).1,
           (runLoop attempt (i + 1) p2 rest).2) := by
        simp only [runLoop]
        rw [ha]
      have he2 : runLoop attempt i p ((s :: rest).take (k + 1 + 1)) =
          (⟨i, s.tool, s.args, true, none, some p2.url, some p2.title⟩ ::
            (runLoop attempt (i + 1) p2 (rest.take (k + 1))).1,
           (runLoop attempt (i + 1) p2 (rest.take (k + 1))).2) := by
        simp only [List.take_succ_cons, runLoop]
        rw [ha]
      refine ⟨by rw [he]; exact ih1, ?_, ?_, ?_, ?_, ?_⟩
      · rw [he]
        simp only [List.length_cons, ih2]
      · intro j hj
        cases j with
        | zero =>
          exact ⟨⟨i, s.tool, s.args, true, none, some p2.url, some p2.title⟩, s,
            by rw [he]; rfl, rfl, rfl, rfl, by simp, rfl, rfl⟩
        | succ j =>
          obtain ⟨so, st, hso, hst, hok, herr, hidx, htool, hargs⟩ :=
            ih3 j (by omega)
          refine ⟨so, st, ?_, ?_, hok, herr, ?_, htool, hargs⟩
          · rw [he]
            simpa using hso
          · simpa using hst
          · rw [hidx]
            omega
      · obtain ⟨so, st, hso, hst, hok, herr, hidx, htool, hargs⟩ := ih4
        refine ⟨so, st, ?_, ?_, hok, herr, ?_, htool, hargs⟩
        · rw [he]
          simpa using hso
        · simpa using hst
        · rw [hidx]
          omega
      · rw [he]
        simp only [ih5, pageAfter]
        rw [ha]
      · rw [he, he2, ih6]

/-- C3: when the `k`-th executed step of a plan fails (0-based `k`; a target
resolution error or timeout raised inside the per-step `try` block), the
result document the runner writes has `ok=False`, its `steps` list holds
exactly the `k + 1` attempted steps in plan order — the failing step last,
with `ok=False` and its error recorded — no later step is attempted (the
result coincides with the run of the plan truncated after the failing
step), and the final fields are still populated by the unconditional
post-loop capture: `final_url`/`final_title`/`final_dom_preview` record the
page state at halt time and `final_screenshot` the fixed artifact name. -/
theorem c3_halt_on_failure (attempt : Page → ReqStep → Page × Option String)
    (limit : Nat) (page0 : Page) (plan : List ReqStep) (k : Nat)
    (hf : failsAt attempt page0 plan k) :
    (runner_main attempt limit page0 plan).ok = false ∧
    (runner_main attempt limit page0 plan).steps.length = k + 1 ∧
    (∀ j, j < k → ∃ so s,
      (runner_main attempt limit page0 plan).steps.get? j = some so ∧
      plan.get? j = some s ∧ so.ok = true ∧ so.error = none ∧ so.idx = j ∧
      so.tool = s.tool ∧ so.args = s.args) ∧
    (∃ so s, (runner_main attempt limit page0 plan).steps.get? k = some so ∧
      plan.get? k = some s ∧ so.ok = false ∧ so.error ≠ none ∧ so.idx = k ∧
      so.tool = s.tool ∧ so.args = s.args) ∧
    runner_main attempt limit page0 plan =
      runner_main attempt limit page0 (plan.take (k + 1)) ∧
    (runner_main attempt limit page0 plan).final_url =
      (pageAfter attempt page0 plan).url ∧
    (runner_main attempt limit page0 plan).final_title =
      (pageAfter attempt page0 plan).title ∧
    (runner_main attempt limit page0 plan).final_dom_preview =
      dom_preview limit (pageAfter attempt page0 plan).html ∧
    (runner_main attempt limit page0 plan).final_screenshot =
      "artifacts/final.png" := by
  obtain ⟨h1, h2, h3, h4, h5, h6⟩ := runLoop_spec attempt plan k 0 page0 hf
  refine ⟨h1, h2, ?_, ?_, ?_, by simp only [runner_main, h5],
    by simp only [runner_main, h5], by simp only [runner_main, h5], rfl⟩
  · intro j hj
    obtain ⟨so, st, hso, hst, hok, herr, hidx, htool, hargs⟩ := h3 j hj
    exact ⟨so, st, hso, hst, hok, herr, by rw [hidx]; omega, htool, hargs⟩
  · obtain ⟨so, st, hso, hst, hok, herr, hidx, htool, hargs⟩ := h4
    exact ⟨so, st, hso, hst, hok, herr, by rw [hidx]; omega, htool, hargs⟩
  · simp only [runner_main, h6]

/-- C3 witness: a one-step plan whose only attempt raises. -/
theorem c3_witness :
    (runner_main (fun p s => (p, some "locator timeout")) 5 ⟨"u", "t", "h"⟩
      [⟨"click", .dict [("text", .str "Add to cart")]⟩]).ok = false ∧
    (runner_main (fun p s => (p, some "locator timeout")) 5 ⟨"u", "t", "h"⟩
      [⟨"click", .dict [("text", .str "Add to cart")]⟩]).steps.length = 0 + 1 :=
  ⟨(c3_halt_on_failure (fun p s => (p, some "locator timeout")) 5 ⟨"u", "t", "h"⟩
      [⟨"click", .dict [("text", .str "Add to cart")]⟩] 0 (by simp [failsAt])).1,
   (c3_halt_on_failure (fun p s => (p, some "locator timeout")) 5 ⟨"u", "t", "h"⟩
      [⟨"click", .dict [("text", .str "Add to cart")]⟩] 0 (by simp [failsAt])).2.1⟩
